import Mathlib

/-!
Verification of the homematic_exporter reading-normalization pipeline.

Shallow embedding of the Python sources:
  - `src/homematic_exporter/cache.py`            (TimedCache layer)
  - `src/homematic_exporter/collectors/xml_api.py`  (state-listing variant)
  - `src/homematic_exporter/collectors/legacy.py`   (RPC parameter-set variant)

Conventions of the embedding:
  - wall-clock / monotonic timestamps are rationals (the spec tests the cache
    with a controllable clock);
  - Python float values are modelled as rationals; the conversions of interest
    (value/100, value*3600, value/1000) are exact in ℚ;
  - Python exceptions are modelled with `Except PyErr`;
  - `prometheus_client` metric families: `add_metric` appends a sample to the
    family's sample list (the behaviour of the external library the collectors
    call); a metric batch is a finite map family-key -> sample list.
-/

/-- Python exception kinds that the modelled code can raise. -/
inductive PyErr where
  | valueError
  | indexError
  | attributeError
  | assertionError
  | upstreamError
  deriving DecidableEq, Repr

deriving instance DecidableEq for Except

/-! ## Cache layer: `cache.py`

`lru_cache_with_ttl` (lines 5-33): each key owns a mutable slot
`Result(value, death)`; a call returns the cached value when
`monotonic() < death`, otherwise it re-invokes the wrapped function and
overwrites both fields.  `ttl_lru_cache` (lines 36-50): an ordinary
`lru_cache` whose key is extended with the integer time bucket
`time() // seconds_to_live`; entries of old buckets are simply never looked
up again.

A call of either cache is modelled as a pure step on the cache state for one
key, returning (result, state after the call, whether the wrapped function
was invoked during the call).  In one call the wrapped function is invoked
at most once in the Python code, so a `Bool` records the invocation count.
-/

/-- One call of the wrapper produced by `lru_cache_with_ttl` (cache.py,
lines 22-28), for one key.  State: `none` = no slot yet, `some (v, death)` =
slot holding value `v` with expiry `death`.  Mutation of the slot happens
only after the wrapped function returns, so on an exception the state is the
unchanged prior state. -/
def lruTtlStep (ttl now : ℚ) (compute : Except PyErr ℚ)
    (st : Option (ℚ × ℚ)) : Except PyErr ℚ × Option (ℚ × ℚ) × Bool :=
  match st with
  | none =>
      -- cache miss: cached_func invokes func, stores Result(value, now + ttl)
      match compute with
      | .ok v => (.ok v, some (v, now + ttl), true)
      | .error e => (.error e, none, true)
  | some (v, death) =>
      if death < now then
        -- expired: wrapper re-invokes func, then overwrites value and death
        match compute with
        | .ok v2 => (.ok v2, some (v2, now + ttl), true)
        | .error e => (.error e, some (v, death), true)
      else
        (.ok v, some (v, death), false)

/-- The integer time bucket `time() // seconds_to_live` of cache.py line 48. -/
def timeBucket (secondsToLive now : ℚ) : ℤ :=
  (now / secondsToLive).floor

/-- One call of the wrapper produced by `ttl_lru_cache` (cache.py, lines
41-48), for one key.  The inner `lru_cache` key is extended with
`timeBucket`; the state is the association list of buckets already cached
for this key.  `lru_cache` does not cache exceptions, so an error leaves the
state unchanged. -/
def ttlLruStep (secondsToLive now : ℚ) (compute : Except PyErr ℚ)
    (st : List (ℤ × ℚ)) : Except PyErr ℚ × List (ℤ × ℚ) × Bool :=
  match st.lookup (timeBucket secondsToLive now) with
  | some v => (.ok v, st, false)
  | none =>
      match compute with
      | .ok v => (.ok v, (timeBucket secondsToLive now, v) :: st, true)
      | .error e => (.error e, st, true)

/-! ## Reading classification: `xml_api.py`, `HomeMaticCollector.collect`

The per-datapoint `match` of lines 172-244 is embedded as a pure function
`classify`.  The pyccu3 enums `DataPointType` and `DataPointUnit` have more
members than those the collector matches on; the extra members are collapsed
into one catch-all constructor each, which is sound because the code treats
all of them alike (no case matches them). -/

inductive DataPointType where
  | RSSI_DEVICE
  | RSSI_PEER
  | ACTUAL_TEMPERATURE
  | TEMPERATURE
  | HUMIDITY
  | LEVEL
  | OPERATING_VOLTAGE
  | ENERGY_COUNTER
  | CURRENT
  | VOLTAGE
  | POWER
  | UNSUPPORTED
  deriving DecidableEq, Repr

inductive DataPointUnit where
  | DECIMAL_PERCENT
  | PERCENT
  | UNKNOWN
  | WATT_HOUR
  | WATT
  | MILLI_AMPERE
  | VOLTAGE
  | OTHER_UNIT
  deriving DecidableEq, Repr

/-- A raw datapoint value: a number (Python int or float), the pyccu3
BOOLEAN enum, or any of the other value types `floatify` can receive
(IPv4Address, IPv6Address, PartyDate). -/
inductive RawValue where
  | num (q : ℚ)
  | booleanTrue
  | booleanFalse
  | otherValue
  deriving DecidableEq, Repr

/-- `floatify` of xml_api.py lines 18-24: numbers pass through, BOOLEAN.TRUE
becomes 1.0, everything else becomes 0.0. -/
def floatify (v : RawValue) : ℚ :=
  match v with
  | .num q => q
  | .booleanTrue => 1
  | _ => 0

/-- The metric families of the `metrics` dict of xml_api.py lines 99-154,
by dict key. -/
inductive MetricKind where
  | rssi
  | temperature
  | humidity
  | battery
  | level
  | energy
  | current
  | voltage
  | power
  deriving DecidableEq, Repr

/-- The per-datapoint classification of xml_api.py lines 172-244: raw type
and unit to zero or one (metric kind, extra direction label, converted
value). -/
def classify (t : DataPointType) (u : DataPointUnit) (v : RawValue) :
    Option (MetricKind × Option String × ℚ) :=
  match t with
  | .RSSI_DEVICE => some (.rssi, some "ccu->device", floatify v)
  | .RSSI_PEER => some (.rssi, some "device->ccu", floatify v)
  | .ACTUAL_TEMPERATURE => some (.temperature, none, floatify v)
  | .TEMPERATURE => some (.temperature, none, floatify v)
  | .HUMIDITY =>
      match u with
      | .DECIMAL_PERCENT => some (.humidity, none, floatify v / 100)
      | _ => some (.humidity, none, floatify v)
  | .LEVEL =>
      match u with
      | .PERCENT => some (.level, none, floatify v)
      | _ => none
  | .OPERATING_VOLTAGE =>
      match u with
      | .UNKNOWN => some (.battery, none, floatify v)
      | _ => none
  | .ENERGY_COUNTER =>
      match u with
      | .WATT_HOUR => some (.energy, none, floatify v * 3600)
      | .WATT => some (.energy, none, floatify v * 1)
      | _ => some (.energy, none, floatify v)
  | .CURRENT =>
      match u with
      | .MILLI_AMPERE => some (.current, none, floatify v / 1000)
      | _ => some (.current, none, floatify v)
  | .VOLTAGE =>
      match u with
      | .VOLTAGE => some (.voltage, none, floatify v)
      | _ => none
  | .POWER =>
      match u with
      | .WATT => some (.power, none, floatify v)
      | _ => none
  | .UNSUPPORTED => none

/-- Modelled from the words of the declared dispatch table in spec.md
section 4.3, for the refinement comparison with `classify`: every row of the
table, with rows marked dropped and the catch-all "anything else" row —
hence also `(OPERATING_VOLTAGE, VOLTAGE)` and any `(ENERGY_COUNTER, u)` with
`u` outside WATT_HOUR and WATT — mapped to `none`. -/
def specTableClassify (t : DataPointType) (u : DataPointUnit) (v : RawValue) :
    Option (MetricKind × Option String × ℚ) :=
  match t, u with
  | .RSSI_DEVICE, _ => some (.rssi, some "ccu->device", floatify v)
  | .RSSI_PEER, _ => some (.rssi, some "device->ccu", floatify v)
  | .ACTUAL_TEMPERATURE, _ => some (.temperature, none, floatify v)
  | .TEMPERATURE, _ => some (.temperature, none, floatify v)
  | .HUMIDITY, .DECIMAL_PERCENT => some (.humidity, none, floatify v / 100)
  | .HUMIDITY, _ => some (.humidity, none, floatify v)
  | .LEVEL, .PERCENT => some (.level, none, floatify v)
  | .OPERATING_VOLTAGE, .UNKNOWN => some (.battery, none, floatify v)
  | .ENERGY_COUNTER, .WATT_HOUR => some (.energy, none, floatify v * 3600)
  | .ENERGY_COUNTER, .WATT => some (.energy, none, floatify v)
  | .CURRENT, .MILLI_AMPERE => some (.current, none, floatify v / 1000)
  | .CURRENT, _ => some (.current, none, floatify v)
  | .VOLTAGE, .VOLTAGE => some (.voltage, none, floatify v)
  | .POWER, .WATT => some (.power, none, floatify v)
  | _, _ => none

/-- The amended dispatch table: identical to `specTableClassify` except that
`ENERGY_COUNTER` with a unit other than WATT_HOUR and WATT also yields an
energy observation with the identity conversion (the code's unit match falls
through and the raw value is emitted unconverted). -/
def specTableClassifyAmended (t : DataPointType) (u : DataPointUnit) (v : RawValue) :
    Option (MetricKind × Option String × ℚ) :=
  match t, u with
  | .ENERGY_COUNTER, .WATT_HOUR => some (.energy, none, floatify v * 3600)
  | .ENERGY_COUNTER, .WATT => some (.energy, none, floatify v)
  | .ENERGY_COUNTER, _ => some (.energy, none, floatify v)
  | _, _ => specTableClassify t u v

/-! ## Directory joins: `xml_api.py`, lines 53-87

The XML-API directory listings: a room or function entry has a name and a
list of channels, a device entry additionally has an address and a device
type.  A channel is represented by its `ise_id`.  The lookup functions scan
the comprehension `[entry for entry in directory for channel in
entry.channel if channel.ise_id == ise_id]` and accept only a singleton
result. -/

structure XmlNamedEntry where
  name : String
  channel : List ℤ
  deriving DecidableEq, Repr

structure XmlDevice where
  name : String
  address : String
  device_type : String
  channel : List ℤ
  deriving DecidableEq, Repr

/-- The comprehension shared by the three lookup functions: one occurrence
of the entry per member channel whose `ise_id` matches. -/
def foundEntries {α : Type} (entries : List α) (members : α → List ℤ)
    (ise_id : ℤ) : List α :=
  entries.flatMap (fun e => ((members e).filter (fun c => c == ise_id)).map (fun _ => e))

/-- `get_room_of_device` (xml_api.py lines 53-63). -/
def get_room_of_device (rooms : List XmlNamedEntry) (ise_id : ℤ) : String :=
  match foundEntries rooms XmlNamedEntry.channel ise_id with
  | [r] => r.name
  | _ => "unknown"

/-- `get_device_address_of_device` (xml_api.py lines 65-75). -/
def get_device_address_of_device (devices : List XmlDevice) (ise_id : ℤ) :
    String × String :=
  match foundEntries devices XmlDevice.channel ise_id with
  | [d] => (d.address, d.device_type)
  | _ => ("unknown", "unknown")

/-- `get_function_of_device` (xml_api.py lines 77-87). -/
def get_function_of_device (functions : List XmlNamedEntry) (ise_id : ℤ) : String :=
  match foundEntries functions XmlNamedEntry.channel ise_id with
  | [f] => f.name
  | _ => "unknown"

/-! ## Legacy collector: `legacy.py`

The RPC parameter-set variant.  A paramset value arriving over XML-RPC is a
string, an int, a float or a bool; `paramset.get(key)` is `None` when the
key is absent.  `float(...)` and `int(...)` raise ValueError on a
non-numeric string; string-encoded decimal fractions are not modelled (the
XML-RPC layer delivers numbers as numbers). -/

inductive PVal where
  | pstr (s : String)
  | pint (n : ℤ)
  | prat (q : ℚ)
  | pbool (b : Bool)
  deriving DecidableEq, Repr

/-- Digits of a numeric string to the number they denote. -/
def strDigitsToNat (cs : List Char) : ℕ :=
  cs.foldl (fun n c => n * 10 + (c.toNat - Char.toNat '0')) 0

/-- The string is a non-empty run of decimal digits. -/
def strIsNat (cs : List Char) : Bool :=
  !cs.isEmpty && cs.all (fun c => c.isDigit)

/-- Integer-literal parsing as Python `int(str)` accepts it: an optional
minus sign followed by digits; anything else fails (surrounding whitespace
and underscore separators are not modelled). -/
def pyParseInt (s : String) : Option ℤ :=
  match s.data with
  | '-' :: rest =>
      if strIsNat rest then some (-(strDigitsToNat rest : ℤ)) else none
  | cs => if strIsNat cs then some ((strDigitsToNat cs : ℕ) : ℤ) else none

/-- Python `float(value)`. -/
def pyFloat (v : PVal) : Except PyErr ℚ :=
  match v with
  | .pstr s =>
      match pyParseInt s with
      | some n => .ok (n : ℚ)
      | none => .error .valueError
  | .pint n => .ok (n : ℚ)
  | .prat q => .ok q
  | .pbool b => .ok (if b then 1 else 0)

/-- Python `int(value)` (truncation toward zero on floats). -/
def pyInt (v : PVal) : Except PyErr ℤ :=
  match v with
  | .pstr s =>
      match pyParseInt s with
      | some n => .ok n
      | none => .error .valueError
  | .pint n => .ok n
  | .prat q => .ok (q.num.tdiv q.den)
  | .pbool b => .ok (if b then 1 else 0)

/-- Python list indexing `l[i]`: negative indices count from the end,
out-of-range indices raise IndexError. -/
def pyIndex (l : List String) (i : ℤ) : Except PyErr String :=
  let j : ℤ := if i < 0 then i + l.length else i
  if h : 0 ≤ j ∧ j.toNat < l.length then .ok (l.get ⟨j.toNat, h.2⟩)
  else .error .indexError

/-- A device of the XML-RPC device list (pyccu3 HomeMaticRPCDevice), with
the fields the collector reads.  `params` carries, per key of the VALUES
paramset description, the TYPE entry, the VALUE_LIST entry (ENUM only) and
`paramset.get(key)`. -/
structure LegacyParam where
  key : String
  ptype : String
  value_list : List String
  value : Option PVal
  deriving DecidableEq, Repr

structure LegacyDevice where
  address : String
  devtype : String
  parent : String
  parent_type : String
  default_device : Bool
  paramsets : List String
  params : List LegacyParam
  deriving DecidableEq, Repr

/-- `get_mappings` (legacy.py lines 147-153): when no config file was given
(`default_mapped_names` is true) it builds the address-to-name map from the
upstream `device_names()` listing; otherwise the function body falls
through and returns `None`.  The `mapped_names` loaded from the config file
is never read here. -/
def get_mappings (default_mapped_names : Bool)
    (device_names : List (String × String)) : Option (List (String × String)) :=
  if default_mapped_names then some device_names else none

/-- `resolve_mapped_name` (legacy.py lines 155-162).  Calling `.keys()` on
the `None` returned by `get_mappings` raises AttributeError. -/
def resolve_mapped_name (mappings : Option (List (String × String)))
    (device : LegacyDevice) : Except PyErr String :=
  match mappings with
  | none => .error .attributeError
  | some m =>
      if (m.lookup device.address).isSome && !device.default_device then
        .ok ((m.lookup device.address).getD device.address)
      else if (m.lookup device.parent).isSome then
        .ok ((m.lookup device.parent).getD device.address)
      else
        .ok device.address

/-- `process_single_value` (legacy.py lines 164-193): empty or absent
values are skipped; otherwise the sample (label tuple, `float(value)`) is
appended to the gauge named after the key.  The label tuple is built — and
`resolve_mapped_name` runs — before `float(value)` is evaluated, matching
Python's left-to-right evaluation of the `add_metric` arguments.  The
result is the appended sample, `none` when the reading was skipped. -/
def process_single_value (host : String)
    (mappings : Option (List (String × String))) (device : LegacyDevice)
    (value : Option PVal) : Except PyErr (Option (List String × ℚ)) :=
  match value with
  | none => .ok none
  | some v =>
      if v = .pstr "" then .ok none
      else
        match resolve_mapped_name mappings device with
        | .error e => .error e
        | .ok mapped =>
            match pyFloat v with
            | .error e => .error e
            | .ok q =>
                .ok (some ([host, device.address, device.devtype,
                            device.parent_type, mapped], q))

/-- `process_enum` (legacy.py lines 195-236): empty or absent values are
skipped; otherwise the state denoted by the value — `istates[int(value)]` —
is looked up and one sample per declared state is produced, labelled with
that state and carrying 1 for the denoted state and 0 for every other. -/
def process_enum (host : String)
    (mappings : Option (List (String × String))) (device : LegacyDevice)
    (value : Option PVal) (istates : List String) :
    Except PyErr (List (List String × ℚ)) :=
  match value with
  | none => .ok []
  | some v =>
      if v = .pstr "" then .ok []
      else
        match resolve_mapped_name mappings device with
        | .error e => .error e
        | .ok mapped =>
            match pyInt v with
            | .error e => .error e
            | .ok i =>
                match pyIndex istates i with
                | .error e => .error e
                | .ok state =>
                    .ok (istates.map (fun istate =>
                      ([host, device.address, device.devtype,
                        device.parent_type, mapped, istate],
                       if state = istate then (1 : ℚ) else 0)))

/-! ## Aggregation passes

`legacy.py` accumulates into the dict `self.metrics` (gauge name to metric
family); `xml_api.py` accumulates into its local `metrics` dict keyed by the
nine fixed family keys.  A metric family is its list of samples (label
tuple, value); `add_metric` appends a sample. -/

/-- The legacy metrics dict: gauge name to sample list, `none` = no family
created yet. -/
def LegacyBatch : Type := String → Option (List (List String × ℚ))

def legacyEmpty : LegacyBatch := fun _ => none

/-- Create-if-absent then `add_metric`: the sample (labels, v) is appended
to the family named `key` (legacy.py lines 172-193 and 206-236). -/
def legacyAdd (batch : LegacyBatch) (key : String) (labels : List String)
    (v : ℚ) : LegacyBatch :=
  fun k2 => if k2 = key then some (((batch key).getD []) ++ [(labels, v)])
            else batch k2

/-- The paramset-description loop of `generate_metrics` (legacy.py lines
111-137): FLOAT/INTEGER/BOOL keys go through `process_single_value` into the
gauge `key.lower()`, ENUM keys go through `process_enum` into the gauge
`key.lower() + "_set"`, every other TYPE is skipped. -/
def legacyParamStep (host : String)
    (mappings : Option (List (String × String))) (device : LegacyDevice)
    (b : LegacyBatch) (p : LegacyParam) : Except PyErr LegacyBatch :=
  if p.ptype = "FLOAT" ∨ p.ptype = "INTEGER" ∨ p.ptype = "BOOL" then
    match process_single_value host mappings device p.value with
    | .error e => .error e
    | .ok (some (labels, q)) => .ok (legacyAdd b p.key.toLower labels q)
    | .ok none => .ok b
  else if p.ptype = "ENUM" then
    match process_enum host mappings device p.value p.value_list with
    | .error e => .error e
    | .ok obs => .ok (obs.foldl
        (fun b2 o => legacyAdd b2 (p.key.toLower ++ "_set") o.1 o.2) b)
  else
    .ok b

def legacyProcessParams (host : String)
    (mappings : Option (List (String × String))) (device : LegacyDevice)
    (ps : List LegacyParam) (batch : LegacyBatch) : Except PyErr LegacyBatch :=
  ps.foldlM (legacyParamStep host mappings device) batch

/-- The per-device part of `generate_metrics` (legacy.py lines 57-145): a
device is processed when its parent type is supported and it advertises a
VALUES paramset. -/
def legacyProcessDevice (host : String)
    (mappings : Option (List (String × String))) (supported : List String)
    (batch : LegacyBatch) (device : LegacyDevice) : Except PyErr LegacyBatch :=
  if device.parent_type ∈ supported ∧ "VALUES" ∈ device.paramsets then
    legacyProcessParams host mappings device device.params batch
  else
    .ok batch

/-- `generate_metrics` (legacy.py lines 48-145): the devicecount gauge is
filled first, with the sample `((host,), float(len(devices)))`, then every
device is processed in order. -/
def legacyGenerateMetrics (host : String)
    (mappings : Option (List (String × String))) (supported : List String)
    (devices : List LegacyDevice) : Except PyErr LegacyBatch :=
  let batch0 := legacyAdd legacyEmpty "devicecount" [host]
    ((devices.length : ℕ) : ℚ)
  devices.foldlM (legacyProcessDevice host mappings supported) batch0

/-- The XML-API metrics dict of `collect`: one sample list per metric
kind. -/
def XmlBatch : Type := MetricKind → List (List String × ℚ)

def xmlEmpty : XmlBatch := fun _ => []

/-- `add_metric` on the family of kind `k`: appends the sample. -/
def addMetric (batch : XmlBatch) (k : MetricKind) (labels : List String)
    (v : ℚ) : XmlBatch :=
  fun k2 => if k2 = k then batch k2 ++ [(labels, v)] else batch k2

/-- The extra labels appended to the base label tuple: the rssi direction
label when present. -/
def extraLabelList : Option String → List String
  | some s => [s]
  | none => []

structure StateDatapoint where
  dtype : DataPointType
  valueunit : DataPointUnit
  value : RawValue
  deriving DecidableEq, Repr

structure StateChannel where
  name : String
  ise_id : ℤ
  datapoint : List StateDatapoint
  deriving DecidableEq, Repr

structure StateDevice where
  name : String
  channel : List StateChannel
  deriving DecidableEq, Repr

/-- The inner datapoint loop of `collect` (xml_api.py lines 172-244): each
datapoint is classified and, when classification yields a result, appended
to its kind's family with the base labels plus the extra label. -/
def collectDatapoints (base : List String) (dps : List StateDatapoint)
    (batch : XmlBatch) : XmlBatch :=
  dps.foldl (fun b dp =>
    match classify dp.dtype dp.valueunit dp.value with
    | some (k, extra, v) => addMetric b k (base ++ extraLabelList extra) v
    | none => b) batch

/-- The base label tuple of xml_api.py lines 163-171. -/
def xmlBaseLabels (host : String) (rooms : List XmlNamedEntry)
    (devicesDir : List XmlDevice) (functions : List XmlNamedEntry)
    (deviceName : String) (channel : StateChannel) : List String :=
  [host, deviceName,
   (get_device_address_of_device devicesDir channel.ise_id).1,
   (get_device_address_of_device devicesDir channel.ise_id).2,
   channel.name,
   get_room_of_device rooms channel.ise_id,
   get_function_of_device functions channel.ise_id]

/-- `collect` of xml_api.py lines 89-248, over a state-list snapshot: every
channel of every device contributes its classified datapoints.  The batch
starts with all nine families empty, mirroring the dict literal of lines
99-154. -/
def xmlCollect (host : String) (rooms : List XmlNamedEntry)
    (devicesDir : List XmlDevice) (functions : List XmlNamedEntry)
    (snapshot : List StateDevice) : XmlBatch :=
  snapshot.foldl (fun b device =>
    device.channel.foldl (fun b2 channel =>
      collectDatapoints
        (xmlBaseLabels host rooms devicesDir functions device.name channel)
        channel.datapoint b2) b)
    xmlEmpty

/-- The dict keys of the `metrics` dict literal of xml_api.py lines
99-154 — the only families `collect` ever yields. -/
def kindKey : MetricKind → String
  | .rssi => "rssi"
  | .temperature => "temperature"
  | .humidity => "humidity"
  | .battery => "battery"
  | .level => "level"
  | .energy => "energy"
  | .current => "current"
  | .voltage => "voltage"
  | .power => "power"

def xmlMetricFamilyKeys : List String :=
  ["rssi", "temperature", "humidity", "battery", "level", "energy",
   "current", "voltage", "power"]

/-- The classified observations of one channel's datapoints, in reading
order: (kind, full label tuple, converted value). -/
def channelObs (base : List String) (dps : List StateDatapoint) :
    List (MetricKind × List String × ℚ) :=
  dps.filterMap (fun dp =>
    (classify dp.dtype dp.valueunit dp.value).map
      (fun r => (r.1, base ++ extraLabelList r.2.1, r.2.2)))

/-- Python `len` of the auth argument, a 2-tuple of optional strings
(xml_api.py line 33): always 2. -/
def pyTupleLen (_auth : Option String × Option String) : ℕ := 2

/-- The `assert len(auth) > 2` guard of `HomeMaticCollector.__init__`
(xml_api.py lines 30-38): construction succeeds only when the assertion
holds. -/
def homematic_collector_init_check (auth : Option String × Option String) :
    Except PyErr Unit :=
  if pyTupleLen auth > 2 then .ok () else .error .assertionError

/-! ## Theorems -/

theorem lruTtlStep_fresh (ttl t0 v : ℚ) :
    lruTtlStep ttl t0 (.ok v) none = (.ok v, some (v, t0 + ttl), true) := rfl

theorem lruTtlStep_hit (ttl now v death : ℚ) (compute : Except PyErr ℚ)
    (h : ¬ death < now) :
    lruTtlStep ttl now compute (some (v, death)) = (.ok v, some (v, death), false) := by
  simp [lruTtlStep, h]

theorem lruTtlStep_expired (ttl now v w death : ℚ) (h : death < now) :
    lruTtlStep ttl now (.ok w) (some (v, death)) = (.ok w, some (w, now + ttl), true) := by
  simp [lruTtlStep, h]

theorem lruTtlStep_expired_error (ttl now v death : ℚ) (e : PyErr) (h : death < now) :
    lruTtlStep ttl now (.error e) (some (v, death)) =
      (.error e, some (v, death), true) := by
  simp [lruTtlStep, h]

/-- C2 (amended): the claim holds for the slot-based cache
`lru_cache_with_ttl`: after a computing call at time `t0` stores the slot
`(v, t0 + ttl)`, a call strictly less than `ttl` after `t0` returns the
cached value without invoking the wrapped function, and a call strictly
more than `ttl` after `t0` invokes it exactly once more and refreshes the
expiry.  (The bucket-based `ttl_lru_cache` does not satisfy the claim; see
the counterexample.) -/
theorem lru_cache_with_ttl_respects_ttl (ttl t0 now1 now2 v w1 w2 : ℚ)
    (h1 : now1 - t0 < ttl) (h2 : ttl < now2 - t0) :
    lruTtlStep ttl t0 (.ok v) none = (.ok v, some (v, t0 + ttl), true)
    ∧ lruTtlStep ttl now1 (.ok w1) (some (v, t0 + ttl)) =
        (.ok v, some (v, t0 + ttl), false)
    ∧ lruTtlStep ttl now2 (.ok w2) (some (v, t0 + ttl)) =
        (.ok w2, some (w2, now2 + ttl), true) := by
  refine ⟨lruTtlStep_fresh ttl t0 v, ?_, ?_⟩
  · exact lruTtlStep_hit ttl now1 v (t0 + ttl) (.ok w1) (by linarith)
  · exact lruTtlStep_expired ttl now2 v w2 (t0 + ttl) (by linarith)

/-- C2 witness: ttl 60, computed at time 0; at time 30 the cached value is
served without recomputation, at time 61 the wrapped function runs once
more. -/
theorem lru_cache_with_ttl_respects_ttl_witness :
    lruTtlStep 60 0 (.ok 5) none = (.ok 5, some (5, 0 + 60), true)
    ∧ lruTtlStep 60 30 (.ok 7) (some (5, 0 + 60)) = (.ok 5, some (5, 0 + 60), false)
    ∧ lruTtlStep 60 61 (.ok 9) (some (5, 0 + 60)) = (.ok 9, some (9, 61 + 60), true) :=
  lru_cache_with_ttl_respects_ttl 60 0 30 61 5 7 9 (by norm_num) (by norm_num)

/-- C2 counterexample, against the bucket-based `ttl_lru_cache` (the cache
the collectors actually use): with `seconds_to_live = 60`, a value computed
at time 59 is cached under time bucket 0; a second call at time 61 — only 2
time units later, well before the ttl has elapsed — falls into bucket 1 and
invokes the wrapped function again, which the claim forbids. -/
theorem ttl_lru_cache_recomputes_before_ttl :
    ((61 : ℚ) - 59 < 60)
    ∧ ttlLruStep 60 59 (.ok 5) [] = (.ok 5, [(0, 5)], true)
    ∧ ttlLruStep 60 61 (.ok 5) [(0, 5)] = (.ok 5, [(1, 5), (0, 5)], true) := by
  refine ⟨by norm_num, ?_, ?_⟩
  · have hb : timeBucket 60 59 = 0 := by
      unfold timeBucket; norm_num [Rat.floor]
    simp [ttlLruStep, hb]
  · have hb : timeBucket 60 61 = 1 := by
      unfold timeBucket; norm_num [Rat.floor]
    simp [ttlLruStep, hb, List.lookup]

/-- C3: when the cached value has expired and the refresh invocation
raises, the exception propagates, the slot keeps both the old value and the
old expiry, and a later call past the (unchanged) expiry invokes the
wrapped function again.  The bucket-based cache behaves likewise: a raise
on a cache miss propagates, caches nothing, and the next call in the same
bucket invokes the function again. -/
theorem cache_failed_refresh_propagates (ttl now now2 v death w : ℚ) (e : PyErr)
    (h : death < now) (h2 : death < now2) :
    lruTtlStep ttl now (.error e) (some (v, death)) = (.error e, some (v, death), true)
    ∧ lruTtlStep ttl now2 (.ok w) (some (v, death)) =
        (.ok w, some (w, now2 + ttl), true)
    ∧ (∀ st : List (ℤ × ℚ), st.lookup (timeBucket ttl now) = none →
        ttlLruStep ttl now (.error e) st = (.error e, st, true)) := by
  refine ⟨lruTtlStep_expired_error ttl now v death e h,
          lruTtlStep_expired ttl now2 v w death h2, ?_⟩
  intro st hst
  simp [ttlLruStep, hst]

/-- C3 witness: slot value 5 expired at 60; a failing refresh at time 70
propagates the error and keeps the slot, a successful call at 80 recomputes;
the bucket cache propagates a miss-time error with unchanged state. -/
theorem cache_failed_refresh_propagates_witness :
    lruTtlStep 60 70 (.error .upstreamError) (some (5, 60)) =
      (.error .upstreamError, some (5, 60), true)
    ∧ lruTtlStep 60 80 (.ok 7) (some (5, 60)) = (.ok 7, some (7, 80 + 60), true)
    ∧ (∀ st : List (ℤ × ℚ), st.lookup (timeBucket 60 70) = none →
        ttlLruStep 60 70 (.error .upstreamError) st =
          (.error .upstreamError, st, true)) :=
  cache_failed_refresh_propagates 60 70 80 5 60 7 .upstreamError
    (by decide) (by decide)

/-- C5 counterexample: `(ENERGY_COUNTER, VOLTAGE)` is not a row of the
declared table (the table classifier drops it), yet `classify` — the code of
xml_api.py lines 213-222 — produces an energy observation for it, with the
raw value emitted unconverted. -/
theorem classify_energy_counter_unlisted_unit_emits :
    specTableClassify .ENERGY_COUNTER .VOLTAGE (.num 5) = none
    ∧ classify .ENERGY_COUNTER .VOLTAGE (.num 5) = some (.energy, none, 5) :=
  ⟨rfl, rfl⟩

/-- C5 (amended): `classify` agrees everywhere with the declared dispatch
table amended in exactly one point: `ENERGY_COUNTER` with a unit other than
WATT_HOUR and WATT produces an energy observation with the identity
conversion instead of being dropped.  In particular every listed conversion
is applied exactly (HUMIDITY at DECIMAL_PERCENT divides by 100,
ENERGY_COUNTER at WATT_HOUR multiplies by 3600, CURRENT at MILLI_AMPERE
divides by 1000) and `(OPERATING_VOLTAGE, VOLTAGE)` produces no
observation. -/
theorem classify_eq_amended_table (t : DataPointType) (u : DataPointUnit)
    (v : RawValue) : classify t u v = specTableClassifyAmended t u v := by
  cases t <;> cases u <;> simp [classify, specTableClassifyAmended, specTableClassify]

theorem foundEntries_eq_filter {α : Type} (entries : List α)
    (members : α → List ℤ) (ise_id : ℤ)
    (h : ∀ e ∈ entries, (members e).count ise_id ≤ 1) :
    foundEntries entries members ise_id =
      entries.filter (fun e => (members e).contains ise_id) := by
  induction entries with
  | nil => rfl
  | cons e es ih =>
    have he : (members e).count ise_id ≤ 1 := h e (by simp)
    have hes : ∀ x ∈ es, (members x).count ise_id ≤ 1 :=
      fun x hx => h x (by simp [hx])
    have hcount : ((members e).filter (fun c => c == ise_id)).length =
        (members e).count ise_id := by
      rw [List.count, List.countP_eq_length_filter]
    by_cases hc : ise_id ∈ members e
    · have h1 : (members e).count ise_id = 1 :=
        le_antisymm he (List.count_pos_iff.mpr hc)
      obtain ⟨x, hx⟩ := List.length_eq_one.mp (hcount.trans h1)
      show ((members e).filter (fun c => c == ise_id)).map (fun _ => e)
          ++ foundEntries es members ise_id
          = List.filter (fun x => (members x).contains ise_id) (e :: es)
      rw [hx, List.filter_cons_of_pos (by simp [hc]), ih hes]
      rfl
    · have h0 : (members e).count ise_id = 0 := List.count_eq_zero.mpr hc
      have hfil : (members e).filter (fun c => c == ise_id) = [] :=
        List.length_eq_zero.mp (hcount.trans h0)
      show ((members e).filter (fun c => c == ise_id)).map (fun _ => e)
          ++ foundEntries es members ise_id
          = List.filter (fun x => (members x).contains ise_id) (e :: es)
      rw [hfil, List.filter_cons_of_neg (by simp [hc]), ih hes]
      rfl

/-- C4: when each directory entry lists a given channel at most once (its
member collection is a set), the lookup returns the name (for devices: the
address and device type) of the unique entry containing the channel, and
the sentinel "unknown" (for devices: the pair ("unknown", "unknown")) when
zero entries or two or more entries contain it.  The lookup is a total
function — ambiguity degrades to the sentinel instead of raising. -/
theorem resolve_singleton_or_unknown (rooms : List XmlNamedEntry)
    (devices : List XmlDevice) (ise_id : ℤ)
    (hroom : ∀ r ∈ rooms, r.channel.count ise_id ≤ 1)
    (hdev : ∀ d ∈ devices, d.channel.count ise_id ≤ 1) :
    get_room_of_device rooms ise_id =
      (match rooms.filter (fun r => r.channel.contains ise_id) with
       | [r] => r.name
       | _ => "unknown")
    ∧ get_device_address_of_device devices ise_id =
      (match devices.filter (fun d => d.channel.contains ise_id) with
       | [d] => (d.address, d.device_type)
       | _ => ("unknown", "unknown")) := by
  constructor
  · unfold get_room_of_device
    rw [foundEntries_eq_filter rooms XmlNamedEntry.channel ise_id hroom]
  · unfold get_device_address_of_device
    rw [foundEntries_eq_filter devices XmlDevice.channel ise_id hdev]

/-- C4 witness: channel 1 lies in exactly one room ("Living") and in two
device entries, so the room resolves to its name and the device lookup
degrades to the sentinel pair. -/
theorem resolve_singleton_or_unknown_witness :
    get_room_of_device [⟨"Living", [1, 2]⟩, ⟨"Bath", [3]⟩] 1 =
      (match List.filter (fun r => r.channel.contains 1)
          [(⟨"Living", [1, 2]⟩ : XmlNamedEntry), ⟨"Bath", [3]⟩] with
       | [r] => r.name
       | _ => "unknown")
    ∧ get_device_address_of_device
        [⟨"d1", "ABC:1", "HmIP-A", [1]⟩, ⟨"d2", "DEF:1", "HmIP-B", [1]⟩] 1 =
      (match List.filter (fun d => d.channel.contains 1)
          [(⟨"d1", "ABC:1", "HmIP-A", [1]⟩ : XmlDevice),
           ⟨"d2", "DEF:1", "HmIP-B", [1]⟩] with
       | [d] => (d.address, d.device_type)
       | _ => ("unknown", "unknown")) :=
  resolve_singleton_or_unknown
    [⟨"Living", [1, 2]⟩, ⟨"Bath", [3]⟩]
    [⟨"d1", "ABC:1", "HmIP-A", [1]⟩, ⟨"d2", "DEF:1", "HmIP-B", [1]⟩] 1
    (by decide) (by decide)

/-- C6 counterexample: the spec scenario gives an enumerated reading with
states ["OPEN", "CLOSED"] and current value "CLOSED" and expects two
observations; the code instead evaluates `istates[int(value)]`, and
`int("CLOSED")` raises ValueError, so the pass aborts with an exception and
no observations. -/
theorem process_enum_state_name_value_raises :
    process_enum "ccu" (some [])
      ⟨"ABC:1", "SHUTTER_CONTACT", "ABC", "HmIP-SWDO", false, ["VALUES"], []⟩
      (some (.pstr "CLOSED")) ["OPEN", "CLOSED"] = .error .valueError := by
  rfl

/-- C6 (amended): for an enumerated reading whose non-empty value is an
integer index within the bounds of the declared state list (which is how
the controller reports ENUM values; a state *name* as value raises, see the
counterexample), processing produces exactly one observation per declared
state, each carrying the extra state label, with value 1 for the state the
index denotes and 0 for every other state. -/
theorem process_enum_one_hot (host : String)
    (mappings : Option (List (String × String))) (device : LegacyDevice)
    (mapped : String) (i : ℤ) (istates : List String)
    (hm : resolve_mapped_name mappings device = .ok mapped)
    (h0 : 0 ≤ i) (hi : i.toNat < istates.length) :
    process_enum host mappings device (some (.pint i)) istates =
      .ok (istates.map (fun istate =>
        ([host, device.address, device.devtype, device.parent_type, mapped,
          istate],
         if istates.get ⟨i.toNat, hi⟩ = istate then (1 : ℚ) else 0))) := by
  have hidx : pyIndex istates i = .ok (istates.get ⟨i.toNat, hi⟩) := by
    have hneg : ¬ i < 0 := by omega
    simp only [pyIndex, hneg, if_false]
    exact dif_pos ⟨h0, hi⟩
  simp only [process_enum]
  rw [if_neg (by simp), hm]
  simp only [pyInt, hidx]

/-- C6 witness: the spec scenario with the value given as the index 1 of
"CLOSED": two observations, state "OPEN" valued 0 and state "CLOSED"
valued 1. -/
theorem process_enum_one_hot_witness :
    process_enum "ccu" (some [])
      ⟨"ABC:1", "SHUTTER_CONTACT", "ABC", "HmIP-SWDO", false, ["VALUES"], []⟩
      (some (.pint 1)) ["OPEN", "CLOSED"] =
      .ok (List.map (fun istate =>
        (["ccu", "ABC:1", "SHUTTER_CONTACT", "HmIP-SWDO", "ABC:1", istate],
         if (["OPEN", "CLOSED"].get ⟨(1 : ℤ).toNat, by decide⟩ : String)
             = istate then (1 : ℚ) else 0)) ["OPEN", "CLOSED"]) :=
  process_enum_one_hot "ccu" (some [])
    ⟨"ABC:1", "SHUTTER_CONTACT", "ABC", "HmIP-SWDO", false, ["VALUES"], []⟩
    "ABC:1" 1 ["OPEN", "CLOSED"] rfl (by decide) (by decide)

/-- C7 counterexample: a non-empty, non-numeric raw value where a number is
required is not skipped — `float("abc")` raises ValueError, aborting the
pass, where the claim requires the reading to be skipped and the pass to
continue. -/
theorem process_single_value_nonnumeric_raises :
    process_single_value "ccu" (some [])
      ⟨"ABC:1", "SHUTTER_CONTACT", "ABC", "HmIP-SWDO", false, ["VALUES"], []⟩
      (some (.pstr "abc")) = .error .valueError := by
  rfl

/-- C7 (amended): a raw value that is empty or absent produces no
observation and does not abort — the rest of the pass continues: a
FLOAT-typed parameter with an absent value leaves the parameter loop's
result unchanged.  A non-empty value that is non-numeric where a number is
required, however, raises ValueError and aborts the pass (counterexample).
-/
theorem malformed_value_skip_scope (host : String)
    (mappings : Option (List (String × String))) (device : LegacyDevice)
    (istates : List String) (s : String) (batch : LegacyBatch)
    (ps : List LegacyParam) (key : String) (vl : List String) (mapped : String)
    (hs : ¬ s = "") (hnum : pyParseInt s = none)
    (hm : resolve_mapped_name mappings device = .ok mapped) :
    process_single_value host mappings device none = .ok none
    ∧ process_single_value host mappings device (some (.pstr "")) = .ok none
    ∧ process_enum host mappings device none istates = .ok []
    ∧ process_enum host mappings device (some (.pstr "")) istates = .ok []
    ∧ legacyProcessParams host mappings device
        (⟨key, "FLOAT", vl, none⟩ :: ps) batch
        = legacyProcessParams host mappings device ps batch
    ∧ process_single_value host mappings device (some (.pstr s)) =
        .error .valueError := by
  refine ⟨rfl, rfl, rfl, rfl, rfl, ?_⟩
  simp only [process_single_value]
  rw [if_neg (by simp [hs]), hm]
  simp only [pyFloat, hnum]

/-- C7 witness: an absent value, an empty string value and an empty-valued
FLOAT parameter are all skipped with the pass continuing, while the
non-numeric string "abc" raises. -/
theorem malformed_value_skip_scope_witness :
    process_single_value "ccu" (some [])
      ⟨"ABC:1", "SHUTTER_CONTACT", "ABC", "HmIP-SWDO", false, ["VALUES"], []⟩
      none = .ok none
    ∧ process_single_value "ccu" (some [])
        ⟨"ABC:1", "SHUTTER_CONTACT", "ABC", "HmIP-SWDO", false, ["VALUES"], []⟩
        (some (.pstr "")) = .ok none
    ∧ process_enum "ccu" (some [])
        ⟨"ABC:1", "SHUTTER_CONTACT", "ABC", "HmIP-SWDO", false, ["VALUES"], []⟩
        none ["OPEN", "CLOSED"] = .ok []
    ∧ process_enum "ccu" (some [])
        ⟨"ABC:1", "SHUTTER_CONTACT", "ABC", "HmIP-SWDO", false, ["VALUES"], []⟩
        (some (.pstr "")) ["OPEN", "CLOSED"] = .ok []
    ∧ legacyProcessParams "ccu" (some [])
        ⟨"ABC:1", "SHUTTER_CONTACT", "ABC", "HmIP-SWDO", false, ["VALUES"], []⟩
        (⟨"LEVEL", "FLOAT", [], none⟩ ::
          [⟨"STATE", "BOOL", [], some (.pbool true)⟩]) legacyEmpty
        = legacyProcessParams "ccu" (some [])
            ⟨"ABC:1", "SHUTTER_CONTACT", "ABC", "HmIP-SWDO", false,
             ["VALUES"], []⟩
            [⟨"STATE", "BOOL", [], some (.pbool true)⟩] legacyEmpty
    ∧ process_single_value "ccu" (some [])
        ⟨"ABC:1", "SHUTTER_CONTACT", "ABC", "HmIP-SWDO", false, ["VALUES"], []⟩
        (some (.pstr "abc")) = .error .valueError :=
  malformed_value_skip_scope "ccu" (some [])
    ⟨"ABC:1", "SHUTTER_CONTACT", "ABC", "HmIP-SWDO", false, ["VALUES"], []⟩
    ["OPEN", "CLOSED"] "abc" legacyEmpty
    [⟨"STATE", "BOOL", [], some (.pbool true)⟩] "LEVEL" [] "ABC:1"
    (by decide) (by decide) rfl

/-- C9: the claim describes the intended semantics of the static
device_mapping override, but the code loses it: with a config file present
`default_mapped_names` is false, `get_mappings` falls through and returns
`None` — the `mapped_names` dict loaded from the config is never returned —
and `resolve_mapped_name` then calls `.keys()` on `None`, raising
AttributeError for every device instead of returning the configured
override name. -/
theorem config_mapping_resolution_crashes (device : LegacyDevice)
    (device_names : List (String × String)) :
    get_mappings false device_names = none
    ∧ resolve_mapped_name (get_mappings false device_names) device =
        .error .attributeError :=
  ⟨rfl, rfl⟩

/-- C10: `HomeMaticCollector.__init__` asserts `len(auth) > 2` on the
declared 2-tuple auth parameter; `len` of a 2-tuple is 2, so the assertion
fails and construction raises AssertionError for every auth argument of the
declared type, including the valid `(None, session_id)` shape the exporter
passes. -/
theorem state_listing_init_always_asserts (auth : Option String × Option String) :
    homematic_collector_init_check auth = .error .assertionError := rfl

theorem legacyAdd_head_preserved (b : LegacyBatch) (key0 : String)
    (c : List String × ℚ) (k : String) (labels : List String) (v : ℚ)
    (h : ∃ rest, b key0 = some (c :: rest)) :
    ∃ rest, (legacyAdd b k labels v) key0 = some (c :: rest) := by
  obtain ⟨rest, hr⟩ := h
  by_cases hk : key0 = k
  · subst hk
    exact ⟨rest ++ [(labels, v)], by simp [legacyAdd, hr]⟩
  · exact ⟨rest, by simp [legacyAdd, hk, hr]⟩

theorem foldl_legacyAdd_head_preserved (obs : List (List String × ℚ))
    (b : LegacyBatch) (key0 : String) (c : List String × ℚ) (k : String)
    (h : ∃ rest, b key0 = some (c :: rest)) :
    ∃ rest, (obs.foldl (fun b2 o => legacyAdd b2 k o.1 o.2) b) key0 =
      some (c :: rest) := by
  induction obs generalizing b with
  | nil => exact h
  | cons o os ih =>
      exact ih (legacyAdd b k o.1 o.2)
        (legacyAdd_head_preserved b key0 c k o.1 o.2 h)

theorem legacyParamStep_head_preserved (host : String)
    (mappings : Option (List (String × String))) (device : LegacyDevice)
    (b b2 : LegacyBatch) (p : LegacyParam) (key0 : String)
    (c : List String × ℚ)
    (h : ∃ rest, b key0 = some (c :: rest))
    (hstep : legacyParamStep host mappings device b p = .ok b2) :
    ∃ rest, b2 key0 = some (c :: rest) := by
  unfold legacyParamStep at hstep
  split at hstep
  · split at hstep
    · exact absurd hstep (by simp)
    · cases hstep
      exact legacyAdd_head_preserved b key0 c _ _ _ h
    · cases hstep
      exact h
  · split at hstep
    · split at hstep
      · exact absurd hstep (by simp)
      · cases hstep
        exact foldl_legacyAdd_head_preserved _ b key0 c _ h
    · cases hstep
      exact h

theorem foldlM_head_preserved {γ : Type} (f : LegacyBatch → γ → Except PyErr LegacyBatch)
    (key0 : String) (c : List String × ℚ)
    (hf : ∀ b p b2, (∃ rest, b key0 = some (c :: rest)) → f b p = .ok b2 →
      ∃ rest, b2 key0 = some (c :: rest)) :
    ∀ (l : List γ) (b bf : LegacyBatch),
      (∃ rest, b key0 = some (c :: rest)) → l.foldlM f b = .ok bf →
      ∃ rest, bf key0 = some (c :: rest) := by
  intro l
  induction l with
  | nil =>
      intro b bf hP h
      cases h
      exact hP
  | cons p ps ih =>
      intro b bf hP h
      cases hstep : f b p with
      | error e =>
          rw [show (p :: ps).foldlM f b = f b p >>= fun x => ps.foldlM f x from rfl,
              hstep] at h
          exact absurd h (by simp [Bind.bind, Except.bind])
      | ok b2 =>
          rw [show (p :: ps).foldlM f b = f b p >>= fun x => ps.foldlM f x from rfl,
              hstep] at h
          exact ih b2 bf (hf b p b2 hP hstep) h

theorem legacyProcessDevice_head_preserved (host : String)
    (mappings : Option (List (String × String))) (supported : List String)
    (b b2 : LegacyBatch) (device : LegacyDevice) (key0 : String)
    (c : List String × ℚ)
    (h : ∃ rest, b key0 = some (c :: rest))
    (hstep : legacyProcessDevice host mappings supported b device = .ok b2) :
    ∃ rest, b2 key0 = some (c :: rest) := by
  unfold legacyProcessDevice at hstep
  split at hstep
  · exact foldlM_head_preserved (legacyParamStep host mappings device) key0 c
      (fun b p b2 => legacyParamStep_head_preserved host mappings device b b2 p key0 c)
      device.params b b2 h hstep
  · cases hstep
    exact h

/-- C8 (amended): only the legacy RPC variant emits the device count: its
`generate_metrics` unconditionally creates the devicecount gauge first,
with the sample `((host,), float(len(devices)))` at the head of the family,
and every completed pass keeps that sample.  The state-listing variant's
`collect` allocates exactly the nine families of its metrics dict —
devicecount is not among them, so that variant never emits a device
count. -/
theorem devicecount_only_in_legacy_variant (host : String)
    (mappings : Option (List (String × String))) (supported : List String)
    (devices : List LegacyDevice) (batch : LegacyBatch)
    (h : legacyGenerateMetrics host mappings supported devices = .ok batch) :
    (∃ rest, batch "devicecount" =
        some (([host], ((devices.length : ℕ) : ℚ)) :: rest))
    ∧ "devicecount" ∉ xmlMetricFamilyKeys
    ∧ (∀ k : MetricKind, kindKey k ≠ "devicecount") := by
  refine ⟨?_, by decide, by intro k; cases k <;> decide⟩
  have h0 : ∃ rest,
      (legacyAdd legacyEmpty "devicecount" [host] ((devices.length : ℕ) : ℚ))
        "devicecount" =
      some ((([host], ((devices.length : ℕ) : ℚ)) : List String × ℚ) :: rest) :=
    ⟨[], by simp [legacyAdd, legacyEmpty]⟩
  exact foldlM_head_preserved (legacyProcessDevice host mappings supported)
    "devicecount" ([host], ((devices.length : ℕ) : ℚ))
    (fun b d b2 => legacyProcessDevice_head_preserved host mappings supported
      b b2 d "devicecount" _)
    devices _ batch h0 h

/-- C8 witness: an empty device list — the pass completes and the
devicecount family holds the sample ((host,), 0.0); the xml variant has no
devicecount family. -/
theorem devicecount_only_in_legacy_variant_witness :
    (∃ rest,
      (legacyAdd legacyEmpty "devicecount" ["ccu"]
          (((List.length ([] : List LegacyDevice) : ℕ)) : ℚ)) "devicecount" =
        some ((["ccu"], ((List.length ([] : List LegacyDevice) : ℕ) : ℚ)) :: rest))
    ∧ "devicecount" ∉ xmlMetricFamilyKeys
    ∧ (∀ k : MetricKind, kindKey k ≠ "devicecount") :=
  devicecount_only_in_legacy_variant "ccu" (some []) [] [] _ rfl

/-- C1 (amended): the batch does not deduplicate — `add_metric` appends.
The family of kind `k` after the datapoint loop holds whatever it held
before followed by one sample per classified reading of kind `k`, in
reading order, duplicates of a label tuple included.  Two readings sharing
an identical label tuple and metric kind therefore yield two observations
— the earlier value is kept, not overwritten (counterexample). -/
theorem xml_batch_appends_per_reading (base : List String)
    (dps : List StateDatapoint) (batch : XmlBatch) (k : MetricKind) :
    collectDatapoints base dps batch k =
      batch k ++ ((channelObs base dps).filter (fun o => o.1 == k)).map
        (fun o => (o.2.1, o.2.2)) := by
  induction dps generalizing batch with
  | nil => simp [collectDatapoints, channelObs]
  | cons dp dps ih =>
    have hstep : collectDatapoints base (dp :: dps) batch =
        collectDatapoints base dps
          (match classify dp.dtype dp.valueunit dp.value with
           | some (k1, extra, v) =>
               addMetric batch k1 (base ++ extraLabelList extra) v
           | none => batch) := rfl
    rw [hstep]
    cases hcl : classify dp.dtype dp.valueunit dp.value with
    | none =>
        rw [ih]
        simp [channelObs, List.filterMap_cons, hcl]
    | some r =>
        obtain ⟨k1, extra, v⟩ := r
        rw [ih]
        by_cases hk : k1 = k
        · subst hk
          simp [channelObs, List.filterMap_cons, hcl, addMetric]
        · simp [channelObs, List.filterMap_cons, hcl, addMetric, hk,
                Ne.symm hk]

/-- C1 counterexample: a channel reporting two TEMPERATURE datapoints —
identical label tuple, identical metric kind — ends the pass with two
observations in the temperature family, not exactly one: the claimed
overwrite does not happen. -/
theorem duplicate_label_tuple_kept_twice :
    (xmlCollect "ccu" [] [] []
        [⟨"dev", [⟨"ch", 7,
          [⟨.TEMPERATURE, .UNKNOWN, .num 20⟩,
           ⟨.TEMPERATURE, .UNKNOWN, .num 21⟩]⟩]⟩]) .temperature =
      [(["ccu", "dev", "unknown", "unknown", "ch", "unknown", "unknown"], 20),
       (["ccu", "dev", "unknown", "unknown", "ch", "unknown", "unknown"], 21)]
    ∧ ((xmlCollect "ccu" [] [] []
        [⟨"dev", [⟨"ch", 7,
          [⟨.TEMPERATURE, .UNKNOWN, .num 20⟩,
           ⟨.TEMPERATURE, .UNKNOWN, .num 21⟩]⟩]⟩]) .temperature).length ≠ 1 := by
  have h1 : (xmlCollect "ccu" [] [] []
        [⟨"dev", [⟨"ch", 7,
          [⟨.TEMPERATURE, .UNKNOWN, .num 20⟩,
           ⟨.TEMPERATURE, .UNKNOWN, .num 21⟩]⟩]⟩]) .temperature =
      [(["ccu", "dev", "unknown", "unknown", "ch", "unknown", "unknown"], 20),
       (["ccu", "dev", "unknown", "unknown", "ch", "unknown", "unknown"], 21)] := rfl
  exact ⟨h1, by rw [h1]; decide⟩

/-- C8 counterexample: a state-listing pass over a concrete (empty)
snapshot produces only the nine families of the metrics dict, all empty —
"devicecount" is not one of its family keys, so the state-listing variant
emits no device count observation, contradicting the claim for that
variant. -/
theorem xml_variant_emits_no_devicecount :
    xmlCollect "ccu" [] [] [] [] = xmlEmpty
    ∧ ("devicecount" ∈ xmlMetricFamilyKeys) = False := by
  exact ⟨rfl, by simp [xmlMetricFamilyKeys]⟩
